import Mathlib

/-!
Shallow embedding of `core/controllers/reader.py` (Oppia exploration
learner-view controllers) and proofs about its handlers.

Modelling conventions:
* JSON-ish Python values are `JVal`; a Python `dict` of JSON values is an
  insertion-ordered association list `List (String × JVal)`.
* Every external collaborator (exp_services, collection_services,
  classifier_services, event_services, rights_manager, registries, utils,
  feconf flags, json.loads, random.sample, ...) is a field of an `Env`
  record; handlers consult `Env` for return values and append a `Call`
  entry to a trace for each external call they perform, in source order.
* A handler method `H.m` becomes a Lean function from `Env`, its URL
  arguments, its request/payload, and the incoming `self.values` dict to
  `Except Err HttpResponse × List Call`: the `Except` models Python
  exceptions escaping the handler, the list is the trace of external calls
  made before returning or raising.
* Python exceptions are collapsed to the cases the module distinguishes:
  the ACL decorators aborting, `PageNotFoundException`, a bare
  `raise Exception`, a propagated service exception, `TypeError` from
  subscripting `None`, and `KeyError` from a missing dict key.
-/

set_option autoImplicit false

/-- A JSON-like Python value (`None`, `bool`, number, string, list, dict). -/
inductive JVal where
  | null
  | bool (b : Bool)
  | num (n : Int)
  | str (s : String)
  | arr (xs : List JVal)
  | obj (fields : List (String × JVal))
deriving Inhabited

/-- Python `x is None` for `JVal`. -/
def JVal.isNull : JVal → Bool
  | .null => true
  | _ => false

/-- Python truthiness (`if x:`) for `JVal`. -/
def jTruthy : JVal → Bool
  | .null => false
  | .bool b => b
  | .num n => n != 0
  | .str s => s != ""
  | .arr xs => !xs.isEmpty
  | .obj fs => !fs.isEmpty

/-- `Option String` to `JVal` (`None` ↦ `null`). -/
def optStrJ : Option String → JVal
  | none => .null
  | some s => .str s

/-- The parsed `v` request parameter as the `version` argument handlers pass
to `exp_services.get_exploration_by_id` (`None` ↦ `null`). -/
def optVersionJ : Option Nat → JVal
  | none => .null
  | some n => .num n

/-- Lookup in a Python dict modelled as an ordered association list:
`d[k]`/`d.get(k)` semantics via the first matching key. -/
def dictGet (d : List (String × JVal)) (k : String) : Option JVal :=
  (d.find? (fun p => p.1 == k)).map (fun p => p.2)

/-- Python dict assignment `d[k] = v`: replace in place if the key is
present, else append (insertion order preserved). -/
def dictSet (d : List (String × JVal)) (k : String) (v : JVal) :
    List (String × JVal) :=
  if d.any (fun p => p.1 == k) then
    d.map (fun p => if p.1 == k then (k, v) else p)
  else
    d ++ [(k, v)]

/-- Python `d.update(new)`: assign each pair of `new` into `d` in order. -/
def dictUpdate (d new : List (String × JVal)) : List (String × JVal) :=
  new.foldl (fun acc p => dictSet acc p.1 p.2) d

/-- A handler's POST payload: a JSON dict. -/
abbrev Payload := List (String × JVal)

/-- `self.payload.get(k)`: the value at `k`, or `None` when the key is
missing (a JSON `null` value also arrives as Python `None`). -/
def pyget (p : Payload) (k : String) : JVal :=
  match p.find? (fun q => q.1 == k) with
  | some q => q.2
  | none => .null

/-- `self.payload.get(k, default)`: the default only when the key is missing. -/
def pygetD (p : Payload) (k : String) (d : JVal) : JVal :=
  match p.find? (fun q => q.1 == k) with
  | some q => q.2
  | none => d

/-- `list(set(a) - set(b))` on id lists. Python's set order is unspecified;
the model fixes the order of first occurrence in `a`. The claims proved
below depend only on membership. -/
def pySetDiff (a b : List String) : List String :=
  (a.dedup).filter (fun x => !b.contains x)

/-- An exception escaping a called service: the exploration/collection
lookups raise not-found on a missing id, and may raise anything else. -/
inductive SvcErr where
  | notFound
  | other (code : Nat)
deriving DecidableEq, Repr

/-- An exception escaping a handler method. -/
inductive Err where
  /-- The ACL decorator rejected the request before the body ran. -/
  | unauthorized
  /-- `self.PageNotFoundException`. -/
  | pageNotFound
  /-- A bare `raise Exception` (from `_get_exploration_player_data`). -/
  | genericException
  /-- A service exception propagating unchanged through the handler. -/
  | svc (e : SvcErr)
  /-- Python `TypeError` (subscript-assignment into `None`). -/
  | typeError
  /-- Python `KeyError` (missing key in `exploration.states`). -/
  | keyError
deriving DecidableEq, Repr

/-- An interaction attached to a state (`state.interaction`). -/
structure Interaction where
  id : String
deriving DecidableEq, Repr

/-- An `exp_domain.State` as this module uses it. -/
structure ExpState where
  interaction : Interaction
deriving DecidableEq, Repr

/-- An interaction-registry instance (`Registry.get_interaction_by_id`). -/
structure InteractionInstance where
  normalize_answer : JVal → JVal

/-- An `exp_domain.Exploration` as this module uses it. `states` is the
insertion-ordered state dict; `interaction_ids` is the result of
`get_interaction_ids()`; `player_dict` the result of `to_player_dict()`. -/
structure Exploration where
  version : Int
  title : String
  objective : String
  states : List (String × ExpState)
  interaction_ids : List String
  player_dict : JVal

/-- A collection domain object as this module uses it. -/
structure Collection where
  title : String
  get_next_exploration_ids_in_sequence : String → List String

/-- A classifier training job (fields read by `ExplorationHandler.get`). -/
structure TrainingJob where
  algorithm_id : String
  classifier_data : JVal
  data_schema_version : Int

/-- User settings (field read by `ExplorationHandler.get`). -/
structure UserSettings where
  preferred_audio_language_code : Option String
deriving DecidableEq, Repr

/-- The classifier service's result: a dict with exactly the three keys
`outcome`, `answer_group_index` and `rule_spec_index`. -/
structure ClassificationResult where
  outcome : JVal
  answer_group_index : Int
  rule_spec_index : Int

/-- The JSON dict `classifier_services.classify` hands back, which
`ClassifyHandler` passes to `render_json` unchanged. -/
def ClassificationResult.toJVal (r : ClassificationResult) : JVal :=
  .obj [("outcome", r.outcome),
        ("answer_group_index", .num r.answer_group_index),
        ("rule_spec_index", .num r.rule_spec_index)]

/-- One external call performed by a handler, in source order, with the
arguments the source passes. Event-record calls carry their argument list
as JSON values. -/
inductive Call where
  | getExplorationById (exploration_id : String) (version : JVal)
  | getCollectionById (collection_id : String)
  | getExplorationRights (exploration_id : String)
  | checkCanEditActivity (rights : JVal)
  | getDedupDependencyIds (interaction_ids : List String)
  | getDepsHtml (dependency_ids : List String)
  | getInteractionHtml (interaction_ids : List String)
  | getAllSpecs
  | isExplorationPrivate (exploration_id : String)
  | getUserSettings (user_id : JVal)
  | getClassifierTrainingJobs (exploration_id : String) (version : Int)
      (state_names : List String)
  | generateNewSessionId
  | getInteractionById (id : String)
  | stateFromDict (d : JVal)
  | classifyCall (old_state : ExpState) (answer : JVal)
  | recordAnswerSubmission (args : List JVal)
  | recordStateHit (args : List JVal)
  | recordStateComplete (args : List JVal)
  | recordStartExploration (args : List JVal)
  | recordActualStart (args : List JVal)
  | recordSolutionHit (args : List JVal)
  | recordCompleteExploration (args : List JVal)
  | recordMaybeLeave (args : List JVal)
  | logError (msg : String)
  | createThread (args : List JVal)
  | markExplorationAsCompleted (user_id exploration_id : String)
  | markExplorationAsIncomplete (user_id exploration_id : String)
      (state_name version : JVal)
  | markCollectionAsCompleted (user_id : String) (collection_id : JVal)
  | markCollectionAsIncomplete (user_id : String) (collection_id : JVal)
  | recordPlayedExplorationInCollectionContext (user_id : String)
      (collection_id : JVal) (exploration_id : String)
  | getNextExplorationIdsToCompleteByUser (user_id : String)
      (collection_id : JVal)
  | getNextExplorationIdsInSequence (exploration_id : String)
  | getExplorationRecommendationsCall (exploration_id : String)
  | randomSampleCall (population : List String) (k : Nat)
  | getDisplayableSummaries (ids : List String)
  | getOverallRatings (exploration_id : String)
  | getUserSpecificRating (user_id exploration_id : String)
  | assignRating (user_id : JVal) (exploration_id : String) (rating : JVal)
  | removeExpFromIncompleteList (user_id : JVal) (activity_id : String)
  | removeCollectionFromIncompleteList (user_id : JVal) (activity_id : String)
  | enqueueFlagExplorationEmailTask (exploration_id : String)
      (report_text user_id : JVal)

/-- The environment of external collaborators: the ACL layer, the request
user, every domain service the module calls, and the external constants
and library functions it uses. The module treats all of these as opaque. -/
structure Env where
  /-- `@acl_decorators.can_play_exploration` outcome for this request. -/
  can_play_exploration : String → Bool
  /-- `@acl_decorators.can_access_learner_dashboard` outcome. -/
  can_access_learner_dashboard : Bool
  /-- `@acl_decorators.can_rate_exploration` outcome. -/
  can_rate_exploration : String → Bool
  /-- `@acl_decorators.can_flag_exploration` outcome. -/
  can_flag_exploration : String → Bool
  /-- `self.user_id` (None when logged out). -/
  user_id : Option String
  /-- `exp_services.get_exploration_by_id(id, version=v)`; raises on a
  missing exploration. -/
  get_exploration_by_id : String → JVal → Except SvcErr Exploration
  /-- `collection_services.get_collection_by_id(id)`; raises on a missing
  collection. -/
  get_collection_by_id : String → Except SvcErr Collection
  /-- `rights_manager.get_exploration_rights(id, strict=False)`: an opaque
  rights object. -/
  get_exploration_rights : String → JVal
  /-- `rights_manager.check_can_edit_activity(self.user, rights)`. -/
  check_can_edit_activity : JVal → Bool
  /-- `rights_manager.is_exploration_private(id)`. -/
  is_exploration_private : String → Bool
  /-- `user_services.get_user_settings(self.user_id)`. -/
  get_user_settings : Option String → Option UserSettings
  /-- `classifier_services.get_classifier_training_jobs(id, version,
  states)`: one entry per state, `None` where no job exists. -/
  get_classifier_training_jobs : String → Int → List String →
      List (Option TrainingJob)
  /-- `utils.generate_new_session_id()`. -/
  generate_new_session_id : String
  /-- `interaction_registry.Registry.get_interaction_by_id(id)`. -/
  get_interaction_by_id : String → InteractionInstance
  /-- `classifier_services.classify(old_state, answer)`. -/
  classify : ExpState → JVal → ClassificationResult
  /-- `exp_domain.State.from_dict(d)`. -/
  state_from_dict : JVal → ExpState
  /-- `collection_services.get_next_exploration_ids_to_complete_by_user`. -/
  get_next_exploration_ids_to_complete_by_user : String → JVal → List String
  /-- `recommendations_services.get_exploration_recommendations(id)`. -/
  get_exploration_recommendations : String → List String
  /-- `random.sample(population, k)` (only ever called with
  `k ≤ population.length`). -/
  random_sample : List String → Nat → List String
  /-- `summary_services.get_displayable_exp_summary_dicts_matching_ids`. -/
  get_displayable_exp_summary_dicts_matching_ids : List String → JVal
  /-- `rating_services.get_overall_ratings_for_exploration(id)`. -/
  get_overall_ratings_for_exploration : String → JVal
  /-- `rating_services.get_user_specific_rating_for_exploration`. -/
  get_user_specific_rating_for_exploration : String → String → JVal
  /-- `feconf.ENABLE_NEW_STATS_FRAMEWORK`. -/
  enable_new_stats_framework : Bool
  /-- `interaction_registry.Registry.get_all_specs()`. -/
  get_all_specs : JVal
  /-- `interaction_registry.Registry.get_deduplicated_dependency_ids`. -/
  get_deduplicated_dependency_ids : List String → List String
  /-- `dependency_registry.Registry.get_deps_html_and_angular_modules`:
  the dependencies html and the additional angular modules. -/
  get_deps_html_and_angular_modules : List String → String × JVal
  /-- `interaction_registry.Registry.get_interaction_html`. -/
  get_interaction_html : List String → String
  /-- `DEFAULT_TWITTER_SHARE_MESSAGE_PLAYER.value` (config property). -/
  default_twitter_share_message_player : String
  /-- `utils.capitalize_string(s)`. -/
  capitalize_string : String → String
  /-- `json.loads(s)` on the recommendation ids request parameter:
  `none` when parsing raises (the success case is specialised to a list of
  exploration ids, the only shape the handler's later set operations use). -/
  json_loads : String → Option (List String)

/-- The value a handler method produces: a rendered page, a JSON body, or
a redirect. -/
inductive HttpResponse where
  | page (template : String) (values : List (String × JVal))
  | json (v : JVal)
  | redirect (url : String)

/-- A handler method's outcome: a response or an exception, plus the trace
of external calls made (in order) before returning or raising. -/
abbrev HR := Except Err HttpResponse × List Call

/-- `MAX_SYSTEM_RECOMMENDATIONS` (module constant, line 45). -/
def MAX_SYSTEM_RECOMMENDATIONS : Nat := 4

/-- `feconf.PLAY_TYPE_NORMAL` (external constant). -/
def PLAY_TYPE_NORMAL : String := "normal"

/-- `feconf.NAV_MODE_EXPLORE` (external constant). -/
def NAV_MODE_EXPLORE : String := "explore"

/-- `constants.ACTIVITY_TYPE_EXPLORATION` (external constant). -/
def ACTIVITY_TYPE_EXPLORATION : String := "exploration"

/-- `constants.ACTIVITY_TYPE_COLLECTION` (external constant). -/
def ACTIVITY_TYPE_COLLECTION : String := "collection"

/-- The request parameters the page handlers read (`self.request.get`
returns the empty string for a missing parameter; `v` is kept already
parsed to a version number, `none` for an absent or empty parameter). -/
structure PageRequest where
  v : Option Nat
  collection_id : String
  iframed : String
  /-- `feconf.EXPLORATION_URL_EMBED_PREFIX in self.request.uri`. -/
  embed_url_in_uri : Bool

/-- `trainingJobToJVal job`: the per-state entry written into
`state_classifier_mapping` (lines 226-230). -/
def trainingJobToJVal (job : TrainingJob) : JVal :=
  .obj [("algorithm_id", .str job.algorithm_id),
        ("classifier_data", job.classifier_data),
        ("data_schema_version", .num job.data_schema_version)]

/-- The `for index, state_name in enumerate(exploration.states)` loop of
`ExplorationHandler.get` (lines 219-230). The loop assigns into an
initially empty dict whose keys (the keys of the Python state dict) are
distinct, so the resulting dict is this filterMap. Indexing past the end
of the service's list (an `IndexError` in Python) is conflated with a
missing job; the service contract returns one entry per state. -/
def buildStateClassifierMapping (state_names : List String)
    (jobs : List (Option TrainingJob)) : List (String × JVal) :=
  state_names.enum.filterMap (fun p =>
    (jobs.getD p.1 none).map (fun job => (p.2, trainingJobToJVal job)))

/-- `_get_exploration_player_data` (lines 57-110): the values dict for the
exploration player page, or a bare `raise Exception` when either lookup
raises. -/
def getExplorationPlayerData (env : Env) (exploration_id : String)
    (version : Option Nat) (collection_id : String) (can_edit : Bool) :
    Except Err (List (String × JVal)) × List Call :=
  match env.get_exploration_by_id exploration_id (optVersionJ version) with
  | .error _ =>
      -- `except Exception: raise Exception` (lines 62-63)
      (.error .genericException,
       [.getExplorationById exploration_id (optVersionJ version)])
  | .ok exploration =>
      let calls0 : List Call :=
        [.getExplorationById exploration_id (optVersionJ version)]
      let rest : Option String → List Call →
          Except Err (List (String × JVal)) × List Call :=
        fun collection_title calls =>
          let interaction_ids := exploration.interaction_ids
          let dependency_ids :=
            env.get_deduplicated_dependency_ids interaction_ids
          let dh := env.get_deps_html_and_angular_modules dependency_ids
          let interaction_templates := env.get_interaction_html interaction_ids
          (.ok
            [("INTERACTION_SPECS", env.get_all_specs),
             ("DEFAULT_TWITTER_SHARE_MESSAGE_PLAYER",
              .str env.default_twitter_share_message_player),
             ("additional_angular_modules", dh.2),
             ("can_edit", .bool can_edit),
             ("dependencies_html", .str dh.1),
             ("exploration_title", .str exploration.title),
             ("exploration_version", .num exploration.version),
             ("collection_id", .str collection_id),
             ("collection_title", optStrJ collection_title),
             ("interaction_templates", .str interaction_templates),
             ("is_private", .bool (env.is_exploration_private exploration_id)),
             ("meta_name", .str exploration.title),
             ("meta_description",
              .str (env.capitalize_string exploration.objective)),
             ("nav_mode", .str NAV_MODE_EXPLORE)],
           calls ++
            [.getDedupDependencyIds interaction_ids,
             .getDepsHtml dependency_ids,
             .getInteractionHtml interaction_ids,
             .getAllSpecs,
             .isExplorationPrivate exploration_id])
      -- `if collection_id:` (line 66)
      if collection_id == "" then rest none calls0
      else
        match env.get_collection_by_id collection_id with
        | .error _ =>
            -- `except Exception: raise Exception` (lines 71-72)
            (.error .genericException,
             calls0 ++ [.getCollectionById collection_id])
        | .ok collection =>
            rest (some collection.title)
              (calls0 ++ [.getCollectionById collection_id])

/-- `ExplorationPageEmbed.get` (lines 113-148). -/
def ExplorationPageEmbed.get (env : Env) (exploration_id : String)
    (req : PageRequest) (values0 : List (String × JVal)) : HR :=
  if env.can_play_exploration exploration_id then
    let rights := env.get_exploration_rights exploration_id
    let collection_id := req.collection_id
    let can_edit := env.check_can_edit_activity rights
    let calls1 : List Call :=
      [.getExplorationRights exploration_id, .checkCanEditActivity rights]
    let values1 :=
      if req.embed_url_in_uri || req.iframed != "" then
        dictSet values0 "iframed" (.bool true)
      else values0
    match getExplorationPlayerData env exploration_id req.v collection_id
        can_edit with
    | (.error _, t) =>
        -- `except Exception: raise self.PageNotFoundException` (lines 141-142)
        (.error .pageNotFound, calls1 ++ t)
    | (.ok data, t) =>
        let values2 :=
          dictSet (dictUpdate values1 data) "iframed" (.bool true)
        (.ok (.page "pages/exploration_player/exploration_player.html"
          values2), calls1 ++ t)
  else (.error .unauthorized, [])

/-- `ExplorationPage.get` (lines 151-185). -/
def ExplorationPage.get (env : Env) (exploration_id : String)
    (req : PageRequest) (values0 : List (String × JVal)) : HR :=
  if env.can_play_exploration exploration_id then
    let rights := env.get_exploration_rights exploration_id
    let calls1 : List Call := [.getExplorationRights exploration_id]
    -- `if self.request.get('iframed'):` (line 162)
    if req.iframed != "" then
      let redirect_url := "/embed/exploration/" ++ exploration_id ++
        (match req.v with
         | some n => "?v=" ++ toString n
         | none => "")
      (.ok (.redirect redirect_url), calls1)
    else
      let collection_id := req.collection_id
      let can_edit := env.check_can_edit_activity rights
      let calls2 := calls1 ++ [.checkCanEditActivity rights]
      match getExplorationPlayerData env exploration_id req.v collection_id
          can_edit with
      | (.error _, t) =>
          -- `except Exception: raise self.PageNotFoundException`
          -- (lines 179-180)
          (.error .pageNotFound, calls2 ++ t)
      | (.ok data, t) =>
          let values2 :=
            dictSet (dictUpdate values0 data) "iframed" (.bool false)
          (.ok (.page "pages/exploration_player/exploration_player.html"
            values2), calls2 ++ t)
  else (.error .unauthorized, [])

/-- `ExplorationHandler.get` (lines 188-244): the init JSON data for a
single exploration. -/
def ExplorationHandler.get (env : Env) (exploration_id : String)
    (v : Option Nat) (values0 : List (String × JVal)) : HR :=
  if env.can_play_exploration exploration_id then
    match env.get_exploration_by_id exploration_id (optVersionJ v) with
    | .error _ =>
        -- `raise self.PageNotFoundException(e)` (line 203)
        (.error .pageNotFound,
         [.getExplorationById exploration_id (optVersionJ v)])
    | .ok exploration =>
        let rights := env.get_exploration_rights exploration_id
        let user_settings := env.get_user_settings env.user_id
        let preferred_audio_language_code : JVal :=
          match user_settings with
          | none => .null
          | some us => optStrJ us.preferred_audio_language_code
        let state_names := exploration.states.map (fun p => p.1)
        let classifier_training_jobs :=
          env.get_classifier_training_jobs exploration_id exploration.version
            state_names
        let state_classifier_mapping :=
          buildStateClassifierMapping state_names classifier_training_jobs
        let can_edit := env.check_can_edit_activity rights
        let values2 := dictUpdate values0
          [("can_edit", .bool can_edit),
           ("exploration", exploration.player_dict),
           ("exploration_id", .str exploration_id),
           ("is_logged_in", .bool env.user_id.isSome),
           ("session_id", .str env.generate_new_session_id),
           ("version", .num exploration.version),
           ("preferred_audio_language_code", preferred_audio_language_code),
           ("state_classifier_mapping", .obj state_classifier_mapping)]
        (.ok (.json (.obj values2)),
         [.getExplorationById exploration_id (optVersionJ v),
          .getExplorationRights exploration_id,
          .getUserSettings (optStrJ env.user_id),
          .getClassifierTrainingJobs exploration_id exploration.version
            state_names,
          .checkCanEditActivity rights,
          .generateNewSessionId])
  else (.error .unauthorized, [])

/-- `AnswerSubmittedEventHandler.post` (lines 247-287). The exploration
lookup is not wrapped in a try block: a service exception propagates. -/
def AnswerSubmittedEventHandler.post (env : Env) (exploration_id : String)
    (payload : Payload) (_values0 : List (String × JVal)) : HR :=
  if env.can_play_exploration exploration_id then
    let old_state_name := pyget payload "old_state_name"
    let answer := pyget payload "answer"
    let params := pygetD payload "params" (.obj [])
    let version := pyget payload "version"
    let session_id := pyget payload "session_id"
    let client_time_spent_in_secs :=
      pyget payload "client_time_spent_in_secs"
    let answer_group_index := pyget payload "answer_group_index"
    let rule_spec_index := pyget payload "rule_spec_index"
    let classification_categorization :=
      pyget payload "classification_categorization"
    match env.get_exploration_by_id exploration_id version with
    | .error e =>
        (.error (.svc e), [.getExplorationById exploration_id version])
    | .ok exploration =>
        let calls1 : List Call :=
          [.getExplorationById exploration_id version]
        -- `exploration.states[old_state_name]` (line 274): the state dict
        -- is keyed by strings, so a missing or non-string key raises.
        match old_state_name with
        | .str sn =>
            match exploration.states.find? (fun p => p.1 == sn) with
            | none => (.error .keyError, calls1)
            | some p =>
                let old_interaction := p.2.interaction
                let inst := env.get_interaction_by_id old_interaction.id
                let normalized_answer := inst.normalize_answer answer
                (.ok (.json (.obj [])),
                 calls1 ++
                  [.getInteractionById old_interaction.id,
                   .recordAnswerSubmission
                     [.str exploration_id, version, old_state_name,
                      .str p.2.interaction.id, answer_group_index,
                      rule_spec_index, classification_categorization,
                      session_id, client_time_spent_in_secs, params,
                      normalized_answer]])
        | _ => (.error .keyError, calls1)
  else (.error .unauthorized, [])

/-- `StateHitEventHandler.post` (lines 290-314): records the state hit
unless the new state name is absent (the END state), in which case it only
logs an error. -/
def StateHitEventHandler.post (env : Env) (exploration_id : String)
    (payload : Payload) (_values0 : List (String × JVal)) : HR :=
  if env.can_play_exploration exploration_id then
    let new_state_name := pyget payload "new_state_name"
    let exploration_version := pyget payload "exploration_version"
    let session_id := pyget payload "session_id"
    let old_params := pyget payload "old_params"
    let is_first_hit := pyget payload "is_first_hit"
    -- `if new_state_name is not None:` (line 308)
    if !new_state_name.isNull then
      (.ok (.json (.obj [])),
       [.recordStateHit
          [.str exploration_id, exploration_version, new_state_name,
           session_id, old_params, .str PLAY_TYPE_NORMAL, is_first_hit]])
    else
      (.ok (.json (.obj [])),
       [.logError "Unexpected StateHit event for the END state."])
  else (.error .unauthorized, [])

/-- `StateCompleteEventHandler.post` (lines 317-332): records only when
`feconf.ENABLE_NEW_STATS_FRAMEWORK` is set. -/
def StateCompleteEventHandler.post (env : Env) (exploration_id : String)
    (payload : Payload) (_values0 : List (String × JVal)) : HR :=
  if env.can_play_exploration exploration_id then
    if env.enable_new_stats_framework then
      (.ok (.json (.obj [])),
       [.recordStateComplete
          [.str exploration_id, pyget payload "exp_version",
           pyget payload "state_name", pyget payload "session_id",
           pyget payload "time_spent_in_state_secs"]])
    else (.ok (.json (.obj [])), [])
  else (.error .unauthorized, [])

/-- `ClassifyHandler.post` (lines 335-362): classifies an answer against
the prior state; `params['answer'] = answer` raises `TypeError` when the
payload's `params` is not a dict (in particular when it is missing). -/
def ClassifyHandler.post (env : Env) (unused_exploration_id : String)
    (payload : Payload) (_values0 : List (String × JVal)) : HR :=
  if env.can_play_exploration unused_exploration_id then
    let old_state := env.state_from_dict (pyget payload "old_state")
    let answer := pyget payload "answer"
    let params := pyget payload "params"
    let calls1 : List Call := [.stateFromDict (pyget payload "old_state")]
    match params with
    | .obj fields =>
        -- `params['answer'] = answer` (line 360); the updated dict is not
        -- passed to `classify`.
        let _params2 := dictSet fields "answer" answer
        let result := env.classify old_state answer
        (.ok (.json result.toJVal),
         calls1 ++ [.classifyCall old_state answer])
    | _ => (.error .typeError, calls1)
  else (.error .unauthorized, [])

/-- `ReaderFeedbackHandler.post` (lines 365-384). -/
def ReaderFeedbackHandler.post (env : Env) (exploration_id : String)
    (payload : Payload) (values0 : List (String × JVal)) : HR :=
  if env.can_play_exploration exploration_id then
    let state_name := pyget payload "state_name"
    let subject := pygetD payload "subject" (.str "Feedback from a learner")
    let feedback := pyget payload "feedback"
    let include_author := pyget payload "include_author"
    (.ok (.json (.obj values0)),
     [.createThread
        [.str exploration_id, state_name,
         (if jTruthy include_author then optStrJ env.user_id else .null),
         subject, feedback]])
  else (.error .unauthorized, [])

/-- `ExplorationStartEventHandler.post` (lines 387-401). -/
def ExplorationStartEventHandler.post (env : Env) (exploration_id : String)
    (payload : Payload) (_values0 : List (String × JVal)) : HR :=
  if env.can_play_exploration exploration_id then
    (.ok (.json (.obj [])),
     [.recordStartExploration
        [.str exploration_id, pyget payload "version",
         pyget payload "state_name", pyget payload "session_id",
         pyget payload "params", .str PLAY_TYPE_NORMAL]])
  else (.error .unauthorized, [])

/-- `ExplorationActualStartEventHandler.post` (lines 404-418): records only
when `feconf.ENABLE_NEW_STATS_FRAMEWORK` is set. -/
def ExplorationActualStartEventHandler.post (env : Env)
    (exploration_id : String) (payload : Payload)
    (_values0 : List (String × JVal)) : HR :=
  if env.can_play_exploration exploration_id then
    if env.enable_new_stats_framework then
      (.ok (.json (.obj [])),
       [.recordActualStart
          [.str exploration_id, pyget payload "exploration_version",
           pyget payload "state_name", pyget payload "session_id"]])
    else (.ok (.json (.obj [])), [])
  else (.error .unauthorized, [])

/-- `SolutionHitEventHandler.post` (lines 421-434): records only when
`feconf.ENABLE_NEW_STATS_FRAMEWORK` is set. -/
def SolutionHitEventHandler.post (env : Env) (exploration_id : String)
    (payload : Payload) (_values0 : List (String × JVal)) : HR :=
  if env.can_play_exploration exploration_id then
    if env.enable_new_stats_framework then
      (.ok (.json (.obj [])),
       [.recordSolutionHit
          [.str exploration_id, pyget payload "exploration_version",
           pyget payload "state_name", pyget payload "session_id",
           pyget payload "time_spent_in_state_secs"]])
    else (.ok (.json (.obj [])), [])
  else (.error .unauthorized, [])

/-- `ExplorationCompleteEventHandler.post` (lines 437-481). -/
def ExplorationCompleteEventHandler.post (env : Env)
    (exploration_id : String) (payload : Payload)
    (values0 : List (String × JVal)) : HR :=
  if env.can_play_exploration exploration_id then
    let collection_id := pyget payload "collection_id"
    let calls1 : List Call :=
      [.recordCompleteExploration
         [.str exploration_id, pyget payload "version",
          pyget payload "state_name", pyget payload "session_id",
          pyget payload "client_time_spent_in_secs",
          pyget payload "params", .str PLAY_TYPE_NORMAL]]
    match env.user_id with
    | none => (.ok (.json (.obj values0)), calls1)
    | some uid =>
        let calls2 := calls1 ++ [.markExplorationAsCompleted uid
          exploration_id]
        -- `if user_id and collection_id:` (line 467)
        if jTruthy collection_id then
          let left := env.get_next_exploration_ids_to_complete_by_user uid
            collection_id
          let calls3 := calls2 ++
            [.recordPlayedExplorationInCollectionContext uid collection_id
               exploration_id,
             .getNextExplorationIdsToCompleteByUser uid collection_id]
          -- `if not collections_left_to_complete:` (line 474)
          if left.isEmpty then
            (.ok (.json (.obj values0)),
             calls3 ++ [.markCollectionAsCompleted uid collection_id])
          else
            (.ok (.json (.obj values0)),
             calls3 ++ [.markCollectionAsIncomplete uid collection_id])
        else (.ok (.json (.obj values0)), calls2)
  else (.error .unauthorized, [])

/-- `ExplorationMaybeLeaveHandler.post` (lines 484-516). -/
def ExplorationMaybeLeaveHandler.post (env : Env) (exploration_id : String)
    (payload : Payload) (values0 : List (String × JVal)) : HR :=
  if env.can_play_exploration exploration_id then
    let version := pyget payload "version"
    let state_name := pyget payload "state_name"
    let collection_id := pyget payload "collection_id"
    let callsA : List Call :=
      match env.user_id with
      | none => []
      | some uid =>
          [.markExplorationAsIncomplete uid exploration_id state_name
             version] ++
          (if jTruthy collection_id then
            [.markCollectionAsIncomplete uid collection_id]
          else [])
    (.ok (.json (.obj values0)),
     callsA ++
      [.recordMaybeLeave
         [.str exploration_id, version, state_name,
          pyget payload "session_id",
          pyget payload "client_time_spent_in_secs",
          pyget payload "params", .str PLAY_TYPE_NORMAL]])
  else (.error .unauthorized, [])

/-- `LearnerIncompleteActivityHandler.delete` (lines 519-532). -/
def LearnerIncompleteActivityHandler.delete (env : Env)
    (activity_type activity_id : String)
    (values0 : List (String × JVal)) : HR :=
  if env.can_access_learner_dashboard then
    if activity_type == ACTIVITY_TYPE_EXPLORATION then
      (.ok (.json (.obj values0)),
       [.removeExpFromIncompleteList (optStrJ env.user_id) activity_id])
    else if activity_type == ACTIVITY_TYPE_COLLECTION then
      (.ok (.json (.obj values0)),
       [.removeCollectionFromIncompleteList (optStrJ env.user_id)
          activity_id])
    else (.ok (.json (.obj values0)), [])
  else (.error .unauthorized, [])

/-- `RatingHandler.get` (lines 544-555). -/
def RatingHandler.get (env : Env) (exploration_id : String)
    (values0 : List (String × JVal)) : HR :=
  if env.can_play_exploration exploration_id then
    let overall := env.get_overall_ratings_for_exploration exploration_id
    match env.user_id with
    | some uid =>
        let values2 := dictUpdate values0
          [("overall_ratings", overall),
           ("user_rating",
            env.get_user_specific_rating_for_exploration uid
              exploration_id)]
        (.ok (.json (.obj values2)),
         [.getOverallRatings exploration_id,
          .getUserSpecificRating uid exploration_id])
    | none =>
        let values2 := dictUpdate values0
          [("overall_ratings", overall), ("user_rating", .null)]
        (.ok (.json (.obj values2)), [.getOverallRatings exploration_id])
  else (.error .unauthorized, [])

/-- `RatingHandler.put` (lines 557-565). -/
def RatingHandler.put (env : Env) (exploration_id : String)
    (payload : Payload) (_values0 : List (String × JVal)) : HR :=
  if env.can_rate_exploration exploration_id then
    let user_rating := pyget payload "user_rating"
    (.ok (.json (.obj [])),
     [.assignRating (optStrJ env.user_id) exploration_id user_rating])
  else (.error .unauthorized, [])

/-- The request parameters `RecommendationsHandler.get` reads (empty
string for a missing parameter). -/
structure RecommendationsRequest where
  collection_id : String
  include_system_recommendations : String
  stringified_author_recommended_ids : String

/-- `RecommendationsHandler.get` (lines 568-626). -/
def RecommendationsHandler.get (env : Env) (exploration_id : String)
    (req : RecommendationsRequest)
    (values0 : List (String × JVal)) : HR :=
  if env.can_play_exploration exploration_id then
    let collection_id := req.collection_id
    let include_system_recommendations :=
      req.include_system_recommendations
    -- `try: json.loads(...) except Exception: raise PageNotFoundException`
    -- (lines 584-588)
    match env.json_loads req.stringified_author_recommended_ids with
    | none => (.error .pageNotFound, [])
    | some author_recommended_exp_ids =>
        let finish : List String → List Call → HR := fun auto calls =>
          let ids := author_recommended_exp_ids ++ auto
          let values2 := dictUpdate values0
            [("summaries",
              env.get_displayable_exp_summary_dicts_matching_ids ids)]
          (.ok (.json (.obj values2)),
           calls ++ [.getDisplayableSummaries ids])
        let sysBranch : List Call → HR := fun calls0 =>
          let system_chosen_exp_ids :=
            env.get_exploration_recommendations exploration_id
          let filtered_exp_ids :=
            pySetDiff system_chosen_exp_ids author_recommended_exp_ids
          let k := min MAX_SYSTEM_RECOMMENDATIONS filtered_exp_ids.length
          finish (env.random_sample filtered_exp_ids k)
            (calls0 ++
              [.getExplorationRecommendationsCall exploration_id,
               .randomSampleCall filtered_exp_ids k])
        -- `if self.user_id and collection_id:` (line 591)
        match env.user_id with
        | some uid =>
            if collection_id != "" then
              let next_ids :=
                env.get_next_exploration_ids_to_complete_by_user uid
                  (.str collection_id)
              finish (pySetDiff next_ids author_recommended_exp_ids)
                [.getNextExplorationIdsToCompleteByUser uid
                   (.str collection_id)]
            else
              -- collection_id is empty: `next_exp_ids_in_collection` stays
              -- `[]`, so only the system branch can fire (lines 598-619)
              if include_system_recommendations != "" then sysBranch []
              else finish [] []
        | none =>
            if collection_id != "" then
              match env.get_collection_by_id collection_id with
              | .error e =>
                  -- no try block here: the service exception propagates
                  (.error (.svc e), [.getCollectionById collection_id])
              | .ok collection =>
                  let next_ids :=
                    collection.get_next_exploration_ids_in_sequence
                      exploration_id
                  let calls1 : List Call :=
                    [.getCollectionById collection_id,
                     .getNextExplorationIdsInSequence exploration_id]
                  if !next_ids.isEmpty then
                    finish (pySetDiff next_ids author_recommended_exp_ids)
                      calls1
                  else if include_system_recommendations != "" then
                    sysBranch calls1
                  else finish [] calls1
            else
              if include_system_recommendations != "" then sysBranch []
              else finish [] []
  else (.error .unauthorized, [])

/-- `FlagExplorationHandler.post` (lines 629-638). -/
def FlagExplorationHandler.post (env : Env) (exploration_id : String)
    (payload : Payload) (values0 : List (String × JVal)) : HR :=
  if env.can_flag_exploration exploration_id then
    (.ok (.json (.obj values0)),
     [.enqueueFlagExplorationEmailTask exploration_id
        (pyget payload "report_text") (optStrJ env.user_id)])
  else (.error .unauthorized, [])

/-! ### Library lemmas about the dict model -/

theorem dictGet_append_single (d : List (String × JVal)) (k : String)
    (v : JVal) (h : (d.any (fun q => q.1 == k)) = false) :
    dictGet (d ++ [(k, v)]) k = some v := by
  have hfind : d.find? (fun q => q.1 == k) = none := by
    rw [List.find?_eq_none]
    intro x hx
    intro hcon
    have h2 : d.any (fun q => q.1 == k) = true := by
      rw [List.any_eq_true]
      exact ⟨x, hx, hcon⟩
    rw [h] at h2
    exact Bool.false_ne_true h2
  simp [dictGet, List.find?_append, hfind, List.find?]

theorem dictGet_map_set_self (d : List (String × JVal)) (k : String)
    (v : JVal) (h : (d.any (fun q => q.1 == k)) = true) :
    dictGet (d.map (fun q => if q.1 == k then (k, v) else q)) k = some v := by
  induction d with
  | nil => simp at h
  | cons p d ih =>
    by_cases hp : (p.1 == k) = true
    · simp [dictGet, List.find?, hp]
    · have hp2 : (p.1 == k) = false := Bool.eq_false_iff.mpr hp
      have ha : (d.any (fun q => q.1 == k)) = true := by
        simpa [List.any_cons, hp2] using h
      simpa [dictGet, List.find?, hp2] using ih ha

theorem dictGet_dictSet_self (d : List (String × JVal)) (k : String)
    (v : JVal) : dictGet (dictSet d k v) k = some v := by
  unfold dictSet
  by_cases ha : (d.any (fun q => q.1 == k)) = true
  · simpa [ha] using dictGet_map_set_self d k v ha
  · have ha2 : (d.any (fun q => q.1 == k)) = false := Bool.eq_false_iff.mpr ha
    simpa [ha2] using dictGet_append_single d k v ha2

theorem dictGet_map_set_ne (d : List (String × JVal)) (k k2 : String)
    (v : JVal) (h : (k == k2) = false) :
    dictGet (d.map (fun q => if q.1 == k then (k, v) else q)) k2 =
      dictGet d k2 := by
  induction d with
  | nil => rfl
  | cons p d ih =>
    by_cases hp : (p.1 == k) = true
    · have hpk : p.1 = k := by simpa using hp
      have h2 : (p.1 == k2) = false := by rw [hpk]; exact h
      simpa [dictGet, List.find?, hp, h, h2] using ih
    · have hp2 : (p.1 == k) = false := Bool.eq_false_iff.mpr hp
      by_cases hq : (p.1 == k2) = true
      · simp [dictGet, List.find?, hp2, hq]
      · have hq2 : (p.1 == k2) = false := Bool.eq_false_iff.mpr hq
        simpa [dictGet, List.find?, hp2, hq2] using ih

theorem dictGet_dictSet_ne (d : List (String × JVal)) (k k2 : String)
    (v : JVal) (h : k ≠ k2) :
    dictGet (dictSet d k v) k2 = dictGet d k2 := by
  have hk : (k == k2) = false := by
    cases hh : k == k2
    · rfl
    · exact absurd (by simpa using hh) h
  unfold dictSet
  by_cases ha : (d.any (fun q => q.1 == k)) = true
  · simpa [ha] using dictGet_map_set_ne d k k2 v hk
  · have ha2 : (d.any (fun q => q.1 == k)) = false := Bool.eq_false_iff.mpr ha
    simp [ha2, dictGet, List.find?_append, List.find?, hk]

theorem mem_pySetDiff (x : String) (a b : List String) :
    x ∈ pySetDiff a b ↔ x ∈ a ∧ x ∉ b := by
  simp [pySetDiff, List.mem_filter, List.mem_dedup, List.contains]

theorem mem_buildStateClassifierMapping (names : List String)
    (jobs : List (Option TrainingJob)) (q : String × JVal) :
    q ∈ buildStateClassifierMapping names jobs ↔
      ∃ (i : Nat) (j : TrainingJob), names[i]? = some q.1 ∧
        jobs[i]? = some (some j) ∧ q.2 = trainingJobToJVal j := by
  unfold buildStateClassifierMapping
  rw [List.mem_filterMap]
  constructor
  · rintro ⟨p, hp, hmap⟩
    cases hj : jobs.getD p.1 none with
    | none => rw [hj] at hmap; exact absurd hmap (by simp)
    | some j =>
      rw [hj] at hmap
      have hq : (p.2, trainingJobToJVal j) = q := by simpa using hmap
      have hmem : names[p.1]? = some p.2 := by
        have := List.mem_enum_iff_getElem?.mp hp
        simpa using this
      have hj2 : jobs[p.1]? = some (some j) := by
        rw [List.getD_eq_getElem?_getD] at hj
        cases hx : jobs[p.1]? with
        | none => rw [hx] at hj; simp at hj
        | some o =>
            rw [hx] at hj
            simp only [Option.getD_some] at hj
            rw [hj]
      subst hq
      exact ⟨p.1, j, hmem, hj2, rfl⟩
  · rintro ⟨i, j, h1, h2, h3⟩
    refine ⟨(i, q.1), ?_, ?_⟩
    · rw [List.mem_enum_iff_getElem?]
      simpa using h1
    · have hgd : jobs.getD i none = some j := by
        rw [List.getD_eq_getElem?_getD, h2]; rfl
      cases q with
      | mk q1 q2 =>
        simp only at h3
        subst h3
        simp [List.getD_eq_getElem?_getD, h2]

/-! ### A concrete environment for the witnesses and counterexamples -/

/-- A one-state exploration used by witnesses. -/
def testExploration : Exploration :=
  { version := 1, title := "T", objective := "obj",
    states := [("Intro", ⟨⟨"TextInput"⟩⟩)],
    interaction_ids := ["TextInput"],
    player_dict := .obj [("title", .str "T")] }

/-- A collection used by witnesses. -/
def testCollection : Collection :=
  { title := "C", get_next_exploration_ids_in_sequence := fun _ => [] }

/-- A concrete environment where every lookup succeeds. -/
def testEnv : Env where
  can_play_exploration := fun _ => true
  can_access_learner_dashboard := true
  can_rate_exploration := fun _ => true
  can_flag_exploration := fun _ => true
  user_id := some "uid"
  get_exploration_by_id := fun _ _ => .ok testExploration
  get_collection_by_id := fun _ => .ok testCollection
  get_exploration_rights := fun _ => .null
  check_can_edit_activity := fun _ => false
  is_exploration_private := fun _ => false
  get_user_settings := fun _ => none
  get_classifier_training_jobs := fun _ _ names => names.map (fun _ =>
    some { algorithm_id := "LDAStringClassifier",
           classifier_data := .obj [], data_schema_version := 1 })
  generate_new_session_id := "sess"
  get_interaction_by_id := fun _ => ⟨fun a => a⟩
  classify := fun _ _ =>
    { outcome := .obj [("dest", .str "End")],
      answer_group_index := 0, rule_spec_index := 0 }
  state_from_dict := fun _ => ⟨⟨"TextInput"⟩⟩
  get_next_exploration_ids_to_complete_by_user := fun _ _ => []
  get_exploration_recommendations := fun _ => []
  random_sample := fun l k => l.take k
  get_displayable_exp_summary_dicts_matching_ids := fun ids =>
    .arr (ids.map (fun i => .str i))
  get_overall_ratings_for_exploration := fun _ => .obj []
  get_user_specific_rating_for_exploration := fun _ _ => .null
  enable_new_stats_framework := true
  get_all_specs := .obj []
  get_deduplicated_dependency_ids := fun l => l
  get_deps_html_and_angular_modules := fun _ => ("", .arr [])
  get_interaction_html := fun _ => ""
  default_twitter_share_message_player := "msg"
  capitalize_string := fun s => s
  json_loads := fun s => if s == "[]" then some [] else none

/-! ### C2: the classify endpoint returns the classifier service's result -/

/-- C2: for a POST to the classify endpoint with a well-formed payload
(the `params` field is a dict), the handler returns exactly the
classification result produced by the classifier service for the
deserialized prior state and the raw answer: a JSON dict with exactly the
three keys `outcome`, `answer_group_index` and `rule_spec_index`. -/
theorem classify_returns_service_result (env : Env) (eid : String)
    (payload : Payload) (fields : List (String × JVal))
    (hacl : env.can_play_exploration eid = true)
    (hparams : pyget payload "params" = .obj fields) :
    ClassifyHandler.post env eid payload [] =
      (.ok (.json (.obj
        [("outcome",
          (env.classify (env.state_from_dict (pyget payload "old_state"))
            (pyget payload "answer")).outcome),
         ("answer_group_index",
          .num (env.classify (env.state_from_dict
              (pyget payload "old_state"))
            (pyget payload "answer")).answer_group_index),
         ("rule_spec_index",
          .num (env.classify (env.state_from_dict
              (pyget payload "old_state"))
            (pyget payload "answer")).rule_spec_index)])),
       [.stateFromDict (pyget payload "old_state"),
        .classifyCall (env.state_from_dict (pyget payload "old_state"))
          (pyget payload "answer")]) := by
  simp [ClassifyHandler.post, hacl, hparams, ClassificationResult.toJVal]

/-- Witness for C2 at a concrete payload. -/
theorem classify_returns_service_result_witness :
    testEnv.can_play_exploration "eid" = true ∧
    pyget [("params", JVal.obj [])] "params" = .obj [] ∧
    ClassifyHandler.post testEnv "eid" [("params", JVal.obj [])] [] =
      (.ok (.json (.obj
        [("outcome",
          (testEnv.classify (testEnv.state_from_dict
              (pyget [("params", JVal.obj [])] "old_state"))
            (pyget [("params", JVal.obj [])] "answer")).outcome),
         ("answer_group_index",
          .num (testEnv.classify (testEnv.state_from_dict
              (pyget [("params", JVal.obj [])] "old_state"))
            (pyget [("params", JVal.obj [])] "answer")).answer_group_index),
         ("rule_spec_index",
          .num (testEnv.classify (testEnv.state_from_dict
              (pyget [("params", JVal.obj [])] "old_state"))
            (pyget [("params", JVal.obj [])] "answer")).rule_spec_index)])),
       [.stateFromDict (pyget [("params", JVal.obj [])] "old_state"),
        .classifyCall (testEnv.state_from_dict
            (pyget [("params", JVal.obj [])] "old_state"))
          (pyget [("params", JVal.obj [])] "answer")]) :=
  ⟨rfl, rfl,
   classify_returns_service_result testEnv "eid" [("params", JVal.obj [])]
     [] rfl rfl⟩

/-! ### C10: classify with a missing params field fails before classifying -/

/-- C10: a POST to the classify endpoint whose payload lacks `params`
raises `TypeError` at `params['answer'] = answer` before the classifier
service is called: the trace stops at `State.from_dict`. -/
theorem classify_missing_params_fails_before_service (env : Env)
    (eid : String) (payload : Payload)
    (hacl : env.can_play_exploration eid = true)
    (hparams : pyget payload "params" = .null) :
    ClassifyHandler.post env eid payload [] =
      (.error .typeError, [.stateFromDict (pyget payload "old_state")]) := by
  simp [ClassifyHandler.post, hacl, hparams]

/-- Witness for C10 at a payload without `params`. -/
theorem classify_missing_params_fails_before_service_witness :
    testEnv.can_play_exploration "eid" = true ∧
    pyget [("answer", JVal.str "a")] "params" = .null ∧
    ClassifyHandler.post testEnv "eid" [("answer", JVal.str "a")] [] =
      (.error .typeError,
       [.stateFromDict (pyget [("answer", JVal.str "a")] "old_state")]) :=
  ⟨rfl, rfl,
   classify_missing_params_fails_before_service testEnv "eid"
     [("answer", JVal.str "a")] rfl rfl⟩

/-! ### C9: a state-hit event for the END state is not recorded -/

/-- C9: a POST to the state-hit endpoint whose payload has no
`new_state_name` (the END state) records no state-hit event: the only
external effect is the error log, and the handler still returns `{}`. -/
theorem state_hit_end_state_not_recorded (env : Env) (eid : String)
    (payload : Payload)
    (hacl : env.can_play_exploration eid = true)
    (hend : pyget payload "new_state_name" = .null) :
    StateHitEventHandler.post env eid payload [] =
      (.ok (.json (.obj [])),
       [.logError "Unexpected StateHit event for the END state."]) := by
  simp [StateHitEventHandler.post, hacl, hend, JVal.isNull]

/-- Witness for C9 at a payload without `new_state_name`. -/
theorem state_hit_end_state_not_recorded_witness :
    testEnv.can_play_exploration "eid" = true ∧
    pyget [("session_id", JVal.str "s")] "new_state_name" = .null ∧
    StateHitEventHandler.post testEnv "eid"
        [("session_id", JVal.str "s")] [] =
      (.ok (.json (.obj [])),
       [.logError "Unexpected StateHit event for the END state."]) :=
  ⟨rfl, rfl,
   state_hit_end_state_not_recorded testEnv "eid"
     [("session_id", JVal.str "s")] rfl rfl⟩

/-! ### C5: malformed recommendation ids give 404 before any service call -/

/-- C5: a GET to the recommendations endpoint whose
`stringified_author_recommended_ids` parameter is not valid JSON raises
page-not-found with an empty call trace: no recommendation or collection
service is called. -/
theorem recommendations_bad_json_raises_before_services (env : Env)
    (eid : String) (req : RecommendationsRequest)
    (values0 : List (String × JVal))
    (hacl : env.can_play_exploration eid = true)
    (hparse : env.json_loads req.stringified_author_recommended_ids =
      none) :
    RecommendationsHandler.get env eid req values0 =
      (.error .pageNotFound, []) := by
  simp [RecommendationsHandler.get, hacl, hparse]

/-- Witness for C5 at a concrete malformed request parameter. -/
theorem recommendations_bad_json_raises_before_services_witness :
    testEnv.can_play_exploration "eid" = true ∧
    testEnv.json_loads "not json" = none ∧
    RecommendationsHandler.get testEnv "eid"
        ⟨"", "", "not json"⟩ [] = (.error .pageNotFound, []) :=
  ⟨rfl, rfl,
   recommendations_bad_json_raises_before_services testEnv "eid"
     ⟨"", "", "not json"⟩ [] rfl rfl⟩

/-! ### C1: not-found handling across the four lookup handlers -/

/-- An environment whose exploration lookup always raises not-found. -/
def envExpNotFound : Env :=
  { testEnv with get_exploration_by_id := fun _ _ => .error .notFound }

/-- C1 counterexample: with a missing exploration,
`AnswerSubmittedEventHandler.post` does not surface page-not-found — the
service's not-found exception propagates unchanged (there is no
try/except around its lookup), so the claim fails for this handler. -/
theorem answer_submitted_not_found_is_not_page_not_found :
    (AnswerSubmittedEventHandler.post envExpNotFound "exp" [] []).1 =
      .error (.svc .notFound) ∧
    (AnswerSubmittedEventHandler.post envExpNotFound "exp" [] []).1 ≠
      .error .pageNotFound := by
  constructor
  · rfl
  · intro h
    have h2 : (Except.error (Err.svc .notFound) :
        Except Err HttpResponse) = .error .pageNotFound := h
    cases h2

/-- A collection-aware environment for the C1 witness: the exploration
exists but the collection lookup always raises not-found. -/
def envCollNotFound : Env :=
  { testEnv with get_collection_by_id := fun _ => .error .notFound }

/-- C1 amended: when the exploration lookup raises, `ExplorationPage`,
`ExplorationPageEmbed` and `ExplorationHandler` surface page-not-found;
when the exploration exists but the request names a collection whose
lookup raises, `ExplorationPage` and `ExplorationPageEmbed` (the handlers
that look up collections) likewise surface page-not-found; only
`AnswerSubmittedEventHandler` lets its lookup's service exception
propagate unchanged. -/
theorem not_found_surfaces_as_page_not_found_amended (env : Env)
    (eid : String) (req : PageRequest) (payload : Payload)
    (v : Option Nat) (values0 : List (String × JVal)) (e : SvcErr)
    (exploration : Exploration)
    (hacl : env.can_play_exploration eid = true)
    (hnoiframe : req.iframed = "") :
    ((∀ ver, env.get_exploration_by_id eid ver = .error e) →
      (ExplorationPage.get env eid req values0).1 =
        .error .pageNotFound ∧
      (ExplorationPageEmbed.get env eid req values0).1 =
        .error .pageNotFound ∧
      (ExplorationHandler.get env eid v values0).1 =
        .error .pageNotFound ∧
      (AnswerSubmittedEventHandler.post env eid payload values0).1 =
        .error (.svc e)) ∧
    (env.get_exploration_by_id eid (optVersionJ req.v) =
        .ok exploration →
      req.collection_id ≠ "" →
      env.get_collection_by_id req.collection_id = .error e →
      (ExplorationPage.get env eid req values0).1 =
        .error .pageNotFound ∧
      (ExplorationPageEmbed.get env eid req values0).1 =
        .error .pageNotFound) := by
  constructor
  · intro hfail
    refine ⟨?_, ?_, ?_, ?_⟩
    · simp [ExplorationPage.get, getExplorationPlayerData, hacl, hfail,
        hnoiframe]
    · simp [ExplorationPageEmbed.get, getExplorationPlayerData, hacl,
        hfail]
    · simp [ExplorationHandler.get, hacl, hfail]
    · simp [AnswerSubmittedEventHandler.post, hacl, hfail]
  · intro hexp hcid hcfail
    constructor
    · simp [ExplorationPage.get, getExplorationPlayerData, hacl, hexp,
        hcid, hcfail, hnoiframe]
    · simp [ExplorationPageEmbed.get, getExplorationPlayerData, hacl,
        hexp, hcid, hcfail]

/-- Witness for the amended C1: the missing-exploration half at an
environment whose exploration lookup raises, and the missing-collection
half at an environment whose exploration exists but whose collection
lookup raises, each at a concrete request. -/
theorem not_found_surfaces_as_page_not_found_amended_witness :
    envExpNotFound.can_play_exploration "exp" = true ∧
    (∀ ver, envExpNotFound.get_exploration_by_id "exp" ver =
      .error .notFound) ∧
    envCollNotFound.can_play_exploration "exp" = true ∧
    envCollNotFound.get_exploration_by_id "exp" (optVersionJ none) =
      .ok testExploration ∧
    envCollNotFound.get_collection_by_id "cid" = .error .notFound ∧
    ((ExplorationPage.get envExpNotFound "exp" ⟨none, "", "", false⟩
        []).1 = .error .pageNotFound ∧
     (ExplorationPageEmbed.get envExpNotFound "exp" ⟨none, "", "", false⟩
        []).1 = .error .pageNotFound ∧
     (ExplorationHandler.get envExpNotFound "exp" none []).1 =
       .error .pageNotFound ∧
     (AnswerSubmittedEventHandler.post envExpNotFound "exp" [] []).1 =
       .error (.svc .notFound)) ∧
    ((ExplorationPage.get envCollNotFound "exp" ⟨none, "cid", "", false⟩
        []).1 = .error .pageNotFound ∧
     (ExplorationPageEmbed.get envCollNotFound "exp"
        ⟨none, "cid", "", false⟩ []).1 = .error .pageNotFound) :=
  ⟨rfl, fun _ => rfl, rfl, rfl, rfl,
   (not_found_surfaces_as_page_not_found_amended envExpNotFound "exp"
     ⟨none, "", "", false⟩ [] none [] .notFound testExploration rfl
     rfl).1 (fun _ => rfl),
   (not_found_surfaces_as_page_not_found_amended envCollNotFound "exp"
     ⟨none, "cid", "", false⟩ [] none [] .notFound testExploration rfl
     rfl).2 rfl (by decide) rfl⟩

/-! ### C6: propagation of non-not-found service exceptions -/

/-- An environment whose exploration lookup raises an exception that is
not a not-found condition. -/
def envExpOtherErr : Env :=
  { testEnv with get_exploration_by_id := fun _ _ => .error (.other 7) }

/-- C6 counterexample: a non-not-found exception from the exploration
lookup does not propagate unchanged out of `ExplorationHandler.get` — the
bare `except Exception` turns it into page-not-found. -/
theorem exploration_handler_swallows_other_errors :
    (ExplorationHandler.get envExpOtherErr "exp" none []).1 =
      .error .pageNotFound ∧
    (ExplorationHandler.get envExpOtherErr "exp" none []).1 ≠
      .error (.svc (.other 7)) := by
  constructor
  · rfl
  · intro h
    have h2 : (Except.error Err.pageNotFound : Except Err HttpResponse) =
      .error (.svc (.other 7)) := h
    cases h2

/-- C6 amended: service exceptions raised outside a try block propagate
unchanged with the failing service called exactly once (no retry, no
recovery): so for `AnswerSubmittedEventHandler`'s exploration lookup and
`RecommendationsHandler`'s collection lookup. The try blocks in the two
page handlers and in `ExplorationHandler` convert any exception of the
wrapped lookup — not-found or not — into page-not-found, again with a
single lookup call. -/
theorem error_propagation_amended (env : Env) (eid : String)
    (req : PageRequest) (payload : Payload) (v : Option Nat)
    (values0 : List (String × JVal)) (e : SvcErr)
    (r : RecommendationsRequest) (ids : List String)
    (hacl : env.can_play_exploration eid = true)
    (hfail : ∀ ver, env.get_exploration_by_id eid ver = .error e)
    (hnoiframe : req.iframed = "")
    (hparse : env.json_loads r.stringified_author_recommended_ids =
      some ids)
    (hnouser : env.user_id = none)
    (hcid : r.collection_id ≠ "")
    (hcfail : env.get_collection_by_id r.collection_id = .error e) :
    AnswerSubmittedEventHandler.post env eid payload values0 =
      (.error (.svc e),
       [.getExplorationById eid (pyget payload "version")]) ∧
    RecommendationsHandler.get env eid r values0 =
      (.error (.svc e), [.getCollectionById r.collection_id]) ∧
    ExplorationHandler.get env eid v values0 =
      (.error .pageNotFound, [.getExplorationById eid (optVersionJ v)]) ∧
    ExplorationPage.get env eid req values0 =
      (.error .pageNotFound,
       [.getExplorationRights eid,
        .checkCanEditActivity (env.get_exploration_rights eid),
        .getExplorationById eid (optVersionJ req.v)]) ∧
    ExplorationPageEmbed.get env eid req values0 =
      (.error .pageNotFound,
       [.getExplorationRights eid,
        .checkCanEditActivity (env.get_exploration_rights eid),
        .getExplorationById eid (optVersionJ req.v)]) := by
  refine ⟨?_, ?_, ?_, ?_, ?_⟩
  · simp [AnswerSubmittedEventHandler.post, hacl, hfail]
  · simp [RecommendationsHandler.get, hacl, hparse, hnouser, hcid, hcfail]
  · simp [ExplorationHandler.get, hacl, hfail]
  · simp [ExplorationPage.get, getExplorationPlayerData, hacl, hfail,
      hnoiframe]
  · simp [ExplorationPageEmbed.get, getExplorationPlayerData, hacl, hfail]

/-- An environment for the C6 amended witness: logged out, exploration and
collection lookups both failing with a non-not-found exception. -/
def envPropagation : Env :=
  { testEnv with
    user_id := none,
    get_exploration_by_id := fun _ _ => .error (.other 7),
    get_collection_by_id := fun _ => .error (.other 7) }

/-- Witness for the amended C6 at a concrete request. -/
theorem error_propagation_amended_witness :
    envPropagation.can_play_exploration "exp" = true ∧
    (∀ ver, envPropagation.get_exploration_by_id "exp" ver =
      .error (.other 7)) ∧
    envPropagation.json_loads "[]" = some [] ∧
    envPropagation.user_id = none ∧
    "cid" ≠ "" ∧
    envPropagation.get_collection_by_id "cid" = .error (.other 7) ∧
    (AnswerSubmittedEventHandler.post envPropagation "exp" [] [] =
       (.error (.svc (.other 7)),
        [.getExplorationById "exp" (pyget [] "version")]) ∧
     RecommendationsHandler.get envPropagation "exp" ⟨"cid", "", "[]"⟩ [] =
       (.error (.svc (.other 7)), [.getCollectionById "cid"]) ∧
     ExplorationHandler.get envPropagation "exp" none [] =
       (.error .pageNotFound,
        [.getExplorationById "exp" (optVersionJ none)]) ∧
     ExplorationPage.get envPropagation "exp" ⟨none, "", "", false⟩ [] =
       (.error .pageNotFound,
        [.getExplorationRights "exp",
         .checkCanEditActivity (envPropagation.get_exploration_rights
           "exp"),
         .getExplorationById "exp" (optVersionJ none)]) ∧
     ExplorationPageEmbed.get envPropagation "exp" ⟨none, "", "", false⟩
        [] =
       (.error .pageNotFound,
        [.getExplorationRights "exp",
         .checkCanEditActivity (envPropagation.get_exploration_rights
           "exp"),
         .getExplorationById "exp" (optVersionJ none)])) :=
  ⟨rfl, fun _ => rfl, rfl, rfl, by decide, rfl,
   error_propagation_amended envPropagation "exp" ⟨none, "", "", false⟩
     [] none [] (.other 7) ⟨"cid", "", "[]"⟩ [] rfl (fun _ => rfl) rfl
     rfl rfl (by decide) rfl⟩

/-! ### C3: event-tracking endpoints record their events -/

/-- An environment with the new stats framework disabled
(`feconf.ENABLE_NEW_STATS_FRAMEWORK = False`). -/
def envNoNewStats : Env :=
  { testEnv with enable_new_stats_framework := false }

/-- C3 counterexample: with the new stats framework disabled, a
well-formed POST to the state-complete endpoint records nothing — the
trace is empty — yet the claim says every event endpoint records its
event. The same guard covers the actual-start and solution-hit
endpoints. -/
theorem state_complete_records_nothing_when_stats_disabled :
    StateCompleteEventHandler.post envNoNewStats "exp"
        [("exp_version", JVal.num 1), ("state_name", JVal.str "Intro"),
         ("session_id", JVal.str "s"),
         ("time_spent_in_state_secs", JVal.num 2)] [] =
      (.ok (.json (.obj [])), []) ∧
    ExplorationActualStartEventHandler.post envNoNewStats "exp"
        [("exploration_version", JVal.num 1),
         ("state_name", JVal.str "Intro"),
         ("session_id", JVal.str "s")] [] =
      (.ok (.json (.obj [])), []) ∧
    SolutionHitEventHandler.post envNoNewStats "exp"
        [("exploration_version", JVal.num 1),
         ("state_name", JVal.str "Intro"),
         ("session_id", JVal.str "s"),
         ("time_spent_in_state_secs", JVal.num 2)] [] =
      (.ok (.json (.obj [])), []) := ⟨rfl, rfl, rfl⟩

/-- C3 amended: every event endpoint returns a JSON response, and records
its event via the event service — unconditionally for answer-submitted,
state-hit (with a present new state name), start, complete and
maybe-leave, and provided `feconf.ENABLE_NEW_STATS_FRAMEWORK` is enabled
for state-complete, actual-start and solution-hit. -/
theorem event_handlers_record_amended (env : Env) (eid : String)
    (payload : Payload) (values0 : List (String × JVal))
    (exploration : Exploration) (sn : String) (st : ExpState)
    (hacl : env.can_play_exploration eid = true)
    (hstats : env.enable_new_stats_framework = true)
    (hexp : env.get_exploration_by_id eid (pyget payload "version") =
      .ok exploration)
    (hsn : pyget payload "old_state_name" = .str sn)
    (hst : exploration.states.find? (fun p => p.1 == sn) =
      some (sn, st))
    (hnew : pyget payload "new_state_name" = .str sn) :
    AnswerSubmittedEventHandler.post env eid payload values0 =
      (.ok (.json (.obj [])),
       [.getExplorationById eid (pyget payload "version"),
        .getInteractionById st.interaction.id,
        .recordAnswerSubmission
          [.str eid, pyget payload "version", .str sn,
           .str st.interaction.id, pyget payload "answer_group_index",
           pyget payload "rule_spec_index",
           pyget payload "classification_categorization",
           pyget payload "session_id",
           pyget payload "client_time_spent_in_secs",
           pygetD payload "params" (.obj []),
           (env.get_interaction_by_id st.interaction.id).normalize_answer
             (pyget payload "answer")]]) ∧
    StateHitEventHandler.post env eid payload values0 =
      (.ok (.json (.obj [])),
       [.recordStateHit
          [.str eid, pyget payload "exploration_version", .str sn,
           pyget payload "session_id", pyget payload "old_params",
           .str PLAY_TYPE_NORMAL, pyget payload "is_first_hit"]]) ∧
    StateCompleteEventHandler.post env eid payload values0 =
      (.ok (.json (.obj [])),
       [.recordStateComplete
          [.str eid, pyget payload "exp_version",
           pyget payload "state_name", pyget payload "session_id",
           pyget payload "time_spent_in_state_secs"]]) ∧
    ExplorationStartEventHandler.post env eid payload values0 =
      (.ok (.json (.obj [])),
       [.recordStartExploration
          [.str eid, pyget payload "version", pyget payload "state_name",
           pyget payload "session_id", pyget payload "params",
           .str PLAY_TYPE_NORMAL]]) ∧
    ExplorationActualStartEventHandler.post env eid payload values0 =
      (.ok (.json (.obj [])),
       [.recordActualStart
          [.str eid, pyget payload "exploration_version",
           pyget payload "state_name", pyget payload "session_id"]]) ∧
    SolutionHitEventHandler.post env eid payload values0 =
      (.ok (.json (.obj [])),
       [.recordSolutionHit
          [.str eid, pyget payload "exploration_version",
           pyget payload "state_name", pyget payload "session_id",
           pyget payload "time_spent_in_state_secs"]]) ∧
    (∃ rest,
      ExplorationCompleteEventHandler.post env eid payload values0 =
        (.ok (.json (.obj values0)),
         Call.recordCompleteExploration
           [.str eid, pyget payload "version", pyget payload "state_name",
            pyget payload "session_id",
            pyget payload "client_time_spent_in_secs",
            pyget payload "params", .str PLAY_TYPE_NORMAL] :: rest)) ∧
    (∃ pre,
      ExplorationMaybeLeaveHandler.post env eid payload values0 =
        (.ok (.json (.obj values0)),
         pre ++
          [Call.recordMaybeLeave
             [.str eid, pyget payload "version",
              pyget payload "state_name", pyget payload "session_id",
              pyget payload "client_time_spent_in_secs",
              pyget payload "params", .str PLAY_TYPE_NORMAL]])) := by
  refine ⟨?_, ?_, ?_, ?_, ?_, ?_, ?_, ?_⟩
  · simp [AnswerSubmittedEventHandler.post, hacl, hexp, hsn, hst]
  · simp [StateHitEventHandler.post, hacl, hnew, JVal.isNull]
  · simp [StateCompleteEventHandler.post, hacl, hstats]
  · simp [ExplorationStartEventHandler.post, hacl]
  · simp [ExplorationActualStartEventHandler.post, hacl, hstats]
  · simp [SolutionHitEventHandler.post, hacl, hstats]
  · cases hu : env.user_id with
    | none =>
        refine ⟨[], ?_⟩
        simp [ExplorationCompleteEventHandler.post, hacl, hu]
    | some uid =>
        by_cases hc : jTruthy (pyget payload "collection_id") = true
        · by_cases hl : ((env.get_next_exploration_ids_to_complete_by_user
              uid (pyget payload "collection_id")).isEmpty) = true
          · refine ⟨[.markExplorationAsCompleted uid eid,
              .recordPlayedExplorationInCollectionContext uid
                (pyget payload "collection_id") eid,
              .getNextExplorationIdsToCompleteByUser uid
                (pyget payload "collection_id"),
              .markCollectionAsCompleted uid
                (pyget payload "collection_id")], ?_⟩
            simp [ExplorationCompleteEventHandler.post, hacl, hu, hc, hl]
          · have hl2 := Bool.eq_false_iff.mpr hl
            refine ⟨[.markExplorationAsCompleted uid eid,
              .recordPlayedExplorationInCollectionContext uid
                (pyget payload "collection_id") eid,
              .getNextExplorationIdsToCompleteByUser uid
                (pyget payload "collection_id"),
              .markCollectionAsIncomplete uid
                (pyget payload "collection_id")], ?_⟩
            simp [ExplorationCompleteEventHandler.post, hacl, hu, hc, hl2]
        · have hc2 := Bool.eq_false_iff.mpr hc
          refine ⟨[.markExplorationAsCompleted uid eid], ?_⟩
          simp [ExplorationCompleteEventHandler.post, hacl, hu, hc2]
  · cases hu : env.user_id with
    | none =>
        refine ⟨[], ?_⟩
        simp [ExplorationMaybeLeaveHandler.post, hacl, hu]
    | some uid =>
        by_cases hc : jTruthy (pyget payload "collection_id") = true
        · refine ⟨[.markExplorationAsIncomplete uid eid
            (pyget payload "state_name") (pyget payload "version"),
            .markCollectionAsIncomplete uid
              (pyget payload "collection_id")], ?_⟩
          simp [ExplorationMaybeLeaveHandler.post, hacl, hu, hc]
        · have hc2 := Bool.eq_false_iff.mpr hc
          refine ⟨[.markExplorationAsIncomplete uid eid
            (pyget payload "state_name") (pyget payload "version")], ?_⟩
          simp [ExplorationMaybeLeaveHandler.post, hacl, hu, hc2]

/-- A payload for the C3 witness. -/
def eventPayload : Payload :=
  [("old_state_name", JVal.str "Intro"),
   ("new_state_name", JVal.str "Intro")]

/-- Witness for the amended C3 at a concrete payload. -/
theorem event_handlers_record_amended_witness :
    testEnv.can_play_exploration "eid" = true ∧
    testEnv.enable_new_stats_framework = true ∧
    testEnv.get_exploration_by_id "eid" (pyget eventPayload "version") =
      .ok testExploration ∧
    pyget eventPayload "old_state_name" = .str "Intro" ∧
    testExploration.states.find? (fun p => p.1 == "Intro") =
      some ("Intro", ⟨⟨"TextInput"⟩⟩) ∧
    pyget eventPayload "new_state_name" = .str "Intro" ∧
    (AnswerSubmittedEventHandler.post testEnv "eid" eventPayload [] =
      (.ok (.json (.obj [])),
       [.getExplorationById "eid" (pyget eventPayload "version"),
        .getInteractionById "TextInput",
        .recordAnswerSubmission
          [.str "eid", pyget eventPayload "version", .str "Intro",
           .str "TextInput", pyget eventPayload "answer_group_index",
           pyget eventPayload "rule_spec_index",
           pyget eventPayload "classification_categorization",
           pyget eventPayload "session_id",
           pyget eventPayload "client_time_spent_in_secs",
           pygetD eventPayload "params" (.obj []),
           (testEnv.get_interaction_by_id "TextInput").normalize_answer
             (pyget eventPayload "answer")]]) ∧
    StateHitEventHandler.post testEnv "eid" eventPayload [] =
      (.ok (.json (.obj [])),
       [.recordStateHit
          [.str "eid", pyget eventPayload "exploration_version",
           .str "Intro", pyget eventPayload "session_id",
           pyget eventPayload "old_params", .str PLAY_TYPE_NORMAL,
           pyget eventPayload "is_first_hit"]]) ∧
    StateCompleteEventHandler.post testEnv "eid" eventPayload [] =
      (.ok (.json (.obj [])),
       [.recordStateComplete
          [.str "eid", pyget eventPayload "exp_version",
           pyget eventPayload "state_name",
           pyget eventPayload "session_id",
           pyget eventPayload "time_spent_in_state_secs"]]) ∧
    ExplorationStartEventHandler.post testEnv "eid" eventPayload [] =
      (.ok (.json (.obj [])),
       [.recordStartExploration
          [.str "eid", pyget eventPayload "version",
           pyget eventPayload "state_name",
           pyget eventPayload "session_id",
           pyget eventPayload "params", .str PLAY_TYPE_NORMAL]]) ∧
    ExplorationActualStartEventHandler.post testEnv "eid" eventPayload
        [] =
      (.ok (.json (.obj [])),
       [.recordActualStart
          [.str "eid", pyget eventPayload "exploration_version",
           pyget eventPayload "state_name",
           pyget eventPayload "session_id"]]) ∧
    SolutionHitEventHandler.post testEnv "eid" eventPayload [] =
      (.ok (.json (.obj [])),
       [.recordSolutionHit
          [.str "eid", pyget eventPayload "exploration_version",
           pyget eventPayload "state_name",
           pyget eventPayload "session_id",
           pyget eventPayload "time_spent_in_state_secs"]]) ∧
    (∃ rest,
      ExplorationCompleteEventHandler.post testEnv "eid" eventPayload [] =
        (.ok (.json (.obj [])),
         Call.recordCompleteExploration
           [.str "eid", pyget eventPayload "version",
            pyget eventPayload "state_name",
            pyget eventPayload "session_id",
            pyget eventPayload "client_time_spent_in_secs",
            pyget eventPayload "params", .str PLAY_TYPE_NORMAL] ::
           rest)) ∧
    (∃ pre,
      ExplorationMaybeLeaveHandler.post testEnv "eid" eventPayload [] =
        (.ok (.json (.obj [])),
         pre ++
          [Call.recordMaybeLeave
             [.str "eid", pyget eventPayload "version",
              pyget eventPayload "state_name",
              pyget eventPayload "session_id",
              pyget eventPayload "client_time_spent_in_secs",
              pyget eventPayload "params", .str PLAY_TYPE_NORMAL]]))) :=
  ⟨rfl, rfl, rfl, rfl, rfl, rfl,
   event_handlers_record_amended testEnv "eid" eventPayload []
     testExploration "Intro" ⟨⟨"TextInput"⟩⟩ rfl rfl rfl rfl rfl rfl⟩

/-! ### C4: the init endpoint's JSON bootstrap data -/

/-- C4: for an existing exploration, the init endpoint's JSON response
contains the exploration's player dict, a state-classifier mapping whose
keys are exactly the state names with a non-None training job (each
mapped to the job's `algorithm_id`, `classifier_data` and
`data_schema_version` via `trainingJobToJVal`), the freshly generated
session id (the `generateNewSessionId` call is in this request's trace),
and the exploration's version. -/
theorem exploration_handler_init_data (env : Env) (eid : String)
    (v : Option Nat) (values0 : List (String × JVal))
    (exploration : Exploration)
    (hacl : env.can_play_exploration eid = true)
    (hexp : env.get_exploration_by_id eid (optVersionJ v) =
      .ok exploration) :
    ∃ values : List (String × JVal),
      ExplorationHandler.get env eid v values0 =
        (.ok (.json (.obj values)),
         [.getExplorationById eid (optVersionJ v),
          .getExplorationRights eid,
          .getUserSettings (optStrJ env.user_id),
          .getClassifierTrainingJobs eid exploration.version
            (exploration.states.map (fun p => p.1)),
          .checkCanEditActivity (env.get_exploration_rights eid),
          .generateNewSessionId]) ∧
      dictGet values "exploration" = some exploration.player_dict ∧
      dictGet values "session_id" =
        some (.str env.generate_new_session_id) ∧
      dictGet values "version" = some (.num exploration.version) ∧
      ∃ M, dictGet values "state_classifier_mapping" = some (.obj M) ∧
        ∀ q : String × JVal, q ∈ M ↔
          ∃ (i : Nat) (j : TrainingJob),
            (exploration.states.map (fun p => p.1))[i]? = some q.1 ∧
            (env.get_classifier_training_jobs eid exploration.version
              (exploration.states.map (fun p => p.1)))[i]? =
              some (some j) ∧
            q.2 = trainingJobToJVal j := by
  refine ⟨dictUpdate values0
    [("can_edit", .bool (env.check_can_edit_activity
        (env.get_exploration_rights eid))),
     ("exploration", exploration.player_dict),
     ("exploration_id", .str eid),
     ("is_logged_in", .bool env.user_id.isSome),
     ("session_id", .str env.generate_new_session_id),
     ("version", .num exploration.version),
     ("preferred_audio_language_code",
      match env.get_user_settings env.user_id with
      | none => .null
      | some us => optStrJ us.preferred_audio_language_code),
     ("state_classifier_mapping",
      .obj (buildStateClassifierMapping
        (exploration.states.map (fun p => p.1))
        (env.get_classifier_training_jobs eid exploration.version
          (exploration.states.map (fun p => p.1)))))],
    ?_, ?_, ?_, ?_, ?_⟩
  · simp [ExplorationHandler.get, hacl, hexp]
  · simp only [dictUpdate, List.foldl]
    rw [dictGet_dictSet_ne _ _ _ _ (by decide),
      dictGet_dictSet_ne _ _ _ _ (by decide),
      dictGet_dictSet_ne _ _ _ _ (by decide),
      dictGet_dictSet_ne _ _ _ _ (by decide),
      dictGet_dictSet_ne _ _ _ _ (by decide),
      dictGet_dictSet_ne _ _ _ _ (by decide),
      dictGet_dictSet_self]
  · simp only [dictUpdate, List.foldl]
    rw [dictGet_dictSet_ne _ _ _ _ (by decide),
      dictGet_dictSet_ne _ _ _ _ (by decide),
      dictGet_dictSet_ne _ _ _ _ (by decide),
      dictGet_dictSet_self]
  · simp only [dictUpdate, List.foldl]
    rw [dictGet_dictSet_ne _ _ _ _ (by decide),
      dictGet_dictSet_ne _ _ _ _ (by decide),
      dictGet_dictSet_self]
  · refine ⟨buildStateClassifierMapping
      (exploration.states.map (fun p => p.1))
      (env.get_classifier_training_jobs eid exploration.version
        (exploration.states.map (fun p => p.1))), ?_, ?_⟩
    · simp only [dictUpdate, List.foldl]
      rw [dictGet_dictSet_self]
    · intro q
      exact mem_buildStateClassifierMapping _ _ q

/-- Witness for C4 at a concrete environment and exploration. -/
theorem exploration_handler_init_data_witness :
    testEnv.can_play_exploration "eid" = true ∧
    testEnv.get_exploration_by_id "eid" (optVersionJ none) =
      .ok testExploration ∧
    (∃ values : List (String × JVal),
      ExplorationHandler.get testEnv "eid" none [] =
        (.ok (.json (.obj values)),
         [.getExplorationById "eid" (optVersionJ none),
          .getExplorationRights "eid",
          .getUserSettings (optStrJ testEnv.user_id),
          .getClassifierTrainingJobs "eid" testExploration.version
            (testExploration.states.map (fun p => p.1)),
          .checkCanEditActivity (testEnv.get_exploration_rights "eid"),
          .generateNewSessionId]) ∧
      dictGet values "exploration" = some testExploration.player_dict ∧
      dictGet values "session_id" =
        some (.str testEnv.generate_new_session_id) ∧
      dictGet values "version" = some (.num testExploration.version) ∧
      ∃ M, dictGet values "state_classifier_mapping" = some (.obj M) ∧
        ∀ q : String × JVal, q ∈ M ↔
          ∃ (i : Nat) (j : TrainingJob),
            (testExploration.states.map (fun p => p.1))[i]? = some q.1 ∧
            (testEnv.get_classifier_training_jobs "eid"
              testExploration.version
              (testExploration.states.map (fun p => p.1)))[i]? =
              some (some j) ∧
            q.2 = trainingJobToJVal j) :=
  ⟨rfl, rfl,
   exploration_handler_init_data testEnv "eid" none [] testExploration
     rfl rfl⟩

/-! ### C7: every handler body is behind its ACL decorator -/

/-- C7: every handler method in the module is guarded by the ACL decorator
matching its operation (play, learner-dashboard access, rate, or flag):
when that check rejects the request, the handler performs no external call
and produces no response — the body never runs. -/
theorem acl_guards_every_handler (env : Env) :
    (∀ eid req values0, env.can_play_exploration eid = false →
      ExplorationPageEmbed.get env eid req values0 =
        (.error .unauthorized, [])) ∧
    (∀ eid req values0, env.can_play_exploration eid = false →
      ExplorationPage.get env eid req values0 =
        (.error .unauthorized, [])) ∧
    (∀ eid v values0, env.can_play_exploration eid = false →
      ExplorationHandler.get env eid v values0 =
        (.error .unauthorized, [])) ∧
    (∀ eid payload values0, env.can_play_exploration eid = false →
      AnswerSubmittedEventHandler.post env eid payload values0 =
        (.error .unauthorized, [])) ∧
    (∀ eid payload values0, env.can_play_exploration eid = false →
      StateHitEventHandler.post env eid payload values0 =
        (.error .unauthorized, [])) ∧
    (∀ eid payload values0, env.can_play_exploration eid = false →
      StateCompleteEventHandler.post env eid payload values0 =
        (.error .unauthorized, [])) ∧
    (∀ eid payload values0, env.can_play_exploration eid = false →
      ClassifyHandler.post env eid payload values0 =
        (.error .unauthorized, [])) ∧
    (∀ eid payload values0, env.can_play_exploration eid = false →
      ReaderFeedbackHandler.post env eid payload values0 =
        (.error .unauthorized, [])) ∧
    (∀ eid payload values0, env.can_play_exploration eid = false →
      ExplorationStartEventHandler.post env eid payload values0 =
        (.error .unauthorized, [])) ∧
    (∀ eid payload values0, env.can_play_exploration eid = false →
      ExplorationActualStartEventHandler.post env eid payload values0 =
        (.error .unauthorized, [])) ∧
    (∀ eid payload values0, env.can_play_exploration eid = false →
      SolutionHitEventHandler.post env eid payload values0 =
        (.error .unauthorized, [])) ∧
    (∀ eid payload values0, env.can_play_exploration eid = false →
      ExplorationCompleteEventHandler.post env eid payload values0 =
        (.error .unauthorized, [])) ∧
    (∀ eid payload values0, env.can_play_exploration eid = false →
      ExplorationMaybeLeaveHandler.post env eid payload values0 =
        (.error .unauthorized, [])) ∧
    (∀ activity_type activity_id values0,
      env.can_access_learner_dashboard = false →
      LearnerIncompleteActivityHandler.delete env activity_type
        activity_id values0 = (.error .unauthorized, [])) ∧
    (∀ eid values0, env.can_play_exploration eid = false →
      RatingHandler.get env eid values0 = (.error .unauthorized, [])) ∧
    (∀ eid payload values0, env.can_rate_exploration eid = false →
      RatingHandler.put env eid payload values0 =
        (.error .unauthorized, [])) ∧
    (∀ eid req values0, env.can_play_exploration eid = false →
      RecommendationsHandler.get env eid req values0 =
        (.error .unauthorized, [])) ∧
    (∀ eid payload values0, env.can_flag_exploration eid = false →
      FlagExplorationHandler.post env eid payload values0 =
        (.error .unauthorized, [])) := by
  refine ⟨?_, ?_, ?_, ?_, ?_, ?_, ?_, ?_, ?_, ?_, ?_, ?_, ?_, ?_, ?_,
    ?_, ?_, ?_⟩
  · intro eid req values0 h
    simp [ExplorationPageEmbed.get, h]
  · intro eid req values0 h
    simp [ExplorationPage.get, h]
  · intro eid v values0 h
    simp [ExplorationHandler.get, h]
  · intro eid payload values0 h
    simp [AnswerSubmittedEventHandler.post, h]
  · intro eid payload values0 h
    simp [StateHitEventHandler.post, h]
  · intro eid payload values0 h
    simp [StateCompleteEventHandler.post, h]
  · intro eid payload values0 h
    simp [ClassifyHandler.post, h]
  · intro eid payload values0 h
    simp [ReaderFeedbackHandler.post, h]
  · intro eid payload values0 h
    simp [ExplorationStartEventHandler.post, h]
  · intro eid payload values0 h
    simp [ExplorationActualStartEventHandler.post, h]
  · intro eid payload values0 h
    simp [SolutionHitEventHandler.post, h]
  · intro eid payload values0 h
    simp [ExplorationCompleteEventHandler.post, h]
  · intro eid payload values0 h
    simp [ExplorationMaybeLeaveHandler.post, h]
  · intro activity_type activity_id values0 h
    simp [LearnerIncompleteActivityHandler.delete, h]
  · intro eid values0 h
    simp [RatingHandler.get, h]
  · intro eid payload values0 h
    simp [RatingHandler.put, h]
  · intro eid req values0 h
    simp [RecommendationsHandler.get, h]
  · intro eid payload values0 h
    simp [FlagExplorationHandler.post, h]

/-- An environment where every ACL check rejects the request. -/
def envDenied : Env :=
  { testEnv with
    can_play_exploration := fun _ => false,
    can_access_learner_dashboard := false,
    can_rate_exploration := fun _ => false,
    can_flag_exploration := fun _ => false }

/-- Witness for C7: with every ACL check rejecting, each handler returns
the authorization error with an empty call trace. -/
theorem acl_guards_every_handler_witness :
    ExplorationPageEmbed.get envDenied "e" ⟨none, "", "", false⟩ [] =
      (.error .unauthorized, []) ∧
    ExplorationPage.get envDenied "e" ⟨none, "", "", false⟩ [] =
      (.error .unauthorized, []) ∧
    ExplorationHandler.get envDenied "e" none [] =
      (.error .unauthorized, []) ∧
    AnswerSubmittedEventHandler.post envDenied "e" [] [] =
      (.error .unauthorized, []) ∧
    StateHitEventHandler.post envDenied "e" [] [] =
      (.error .unauthorized, []) ∧
    StateCompleteEventHandler.post envDenied "e" [] [] =
      (.error .unauthorized, []) ∧
    ClassifyHandler.post envDenied "e" [] [] =
      (.error .unauthorized, []) ∧
    ReaderFeedbackHandler.post envDenied "e" [] [] =
      (.error .unauthorized, []) ∧
    ExplorationStartEventHandler.post envDenied "e" [] [] =
      (.error .unauthorized, []) ∧
    ExplorationActualStartEventHandler.post envDenied "e" [] [] =
      (.error .unauthorized, []) ∧
    SolutionHitEventHandler.post envDenied "e" [] [] =
      (.error .unauthorized, []) ∧
    ExplorationCompleteEventHandler.post envDenied "e" [] [] =
      (.error .unauthorized, []) ∧
    ExplorationMaybeLeaveHandler.post envDenied "e" [] [] =
      (.error .unauthorized, []) ∧
    LearnerIncompleteActivityHandler.delete envDenied "exploration" "a"
        [] = (.error .unauthorized, []) ∧
    RatingHandler.get envDenied "e" [] = (.error .unauthorized, []) ∧
    RatingHandler.put envDenied "e" [] [] = (.error .unauthorized, []) ∧
    RecommendationsHandler.get envDenied "e" ⟨"", "", "[]"⟩ [] =
      (.error .unauthorized, []) ∧
    FlagExplorationHandler.post envDenied "e" [] [] =
      (.error .unauthorized, []) := by
  obtain ⟨h1, h2, h3, h4, h5, h6, h7, h8, h9, h10, h11, h12, h13, h14,
    h15, h16, h17, h18⟩ := acl_guards_every_handler envDenied
  exact ⟨h1 "e" ⟨none, "", "", false⟩ [] rfl,
    h2 "e" ⟨none, "", "", false⟩ [] rfl, h3 "e" none [] rfl,
    h4 "e" [] [] rfl, h5 "e" [] [] rfl, h6 "e" [] [] rfl,
    h7 "e" [] [] rfl, h8 "e" [] [] rfl, h9 "e" [] [] rfl,
    h10 "e" [] [] rfl, h11 "e" [] [] rfl, h12 "e" [] [] rfl,
    h13 "e" [] [] rfl, h14 "exploration" "a" [] rfl, h15 "e" [] rfl,
    h16 "e" [] [] rfl, h17 "e" ⟨"", "", "[]"⟩ [] rfl,
    h18 "e" [] [] rfl⟩

/-! ### C8: recommendations are disjoint, bounded, and ordered -/

/-- C8: on a successful GET to the recommendations endpoint the handler
computes a list `auto` of auto-recommended ids that is disjoint from the
author-recommended ids, asks the summary service for the author ids
followed by the auto ids (also the final call of the trace), and — when
`auto` was drawn from system recommendations, i.e. the recommendation
service appears in the trace — contains at most
`MAX_SYSTEM_RECOMMENDATIONS` (4) ids. The sampling hypothesis is the
contract of `random.sample`: a sublist of the requested size. -/
theorem recommendations_auto_ids_disjoint_and_bounded (env : Env)
    (eid : String) (req : RecommendationsRequest)
    (values0 : List (String × JVal)) (author_ids : List String)
    (hacl : env.can_play_exploration eid = true)
    (hparse : env.json_loads req.stringified_author_recommended_ids =
      some author_ids)
    (hsample : ∀ (l : List String) (k : Nat), k ≤ l.length →
      (env.random_sample l k).length = k ∧
      ∀ x ∈ env.random_sample l k, x ∈ l)
    (hcoll : ∀ c : String, c ≠ "" →
      ∃ col, env.get_collection_by_id c = .ok col) :
    ∃ (auto : List String) (calls : List Call),
      RecommendationsHandler.get env eid req values0 =
        (.ok (.json (.obj (dictUpdate values0
          [("summaries",
            env.get_displayable_exp_summary_dicts_matching_ids
              (author_ids ++ auto))]))),
         calls ++ [.getDisplayableSummaries (author_ids ++ auto)]) ∧
      (∀ x ∈ auto, x ∉ author_ids) ∧
      (Call.getExplorationRecommendationsCall eid ∈ calls →
        auto.length ≤ MAX_SYSTEM_RECOMMENDATIONS) := by
  have hsys : ∀ calls0 : List Call,
      (∀ x ∈ env.random_sample
          (pySetDiff (env.get_exploration_recommendations eid) author_ids)
          (min MAX_SYSTEM_RECOMMENDATIONS
            (pySetDiff (env.get_exploration_recommendations eid)
              author_ids).length), x ∉ author_ids) ∧
      (env.random_sample
          (pySetDiff (env.get_exploration_recommendations eid) author_ids)
          (min MAX_SYSTEM_RECOMMENDATIONS
            (pySetDiff (env.get_exploration_recommendations eid)
              author_ids).length)).length ≤ MAX_SYSTEM_RECOMMENDATIONS :=
    by
    intro _
    have hk := hsample
      (pySetDiff (env.get_exploration_recommendations eid) author_ids)
      (min MAX_SYSTEM_RECOMMENDATIONS
        (pySetDiff (env.get_exploration_recommendations eid)
          author_ids).length)
      (Nat.min_le_right _ _)
    constructor
    · intro x hx
      have hxf := hk.2 x hx
      exact ((mem_pySetDiff x _ _).mp hxf).2
    · rw [hk.1]
      exact Nat.min_le_left _ _
  by_cases hc : req.collection_id = ""
  · -- no collection context: only the system branch can add ids
    by_cases hi : req.include_system_recommendations = ""
    · cases hu : env.user_id with
      | none =>
          refine ⟨[], [], ?_, ?_, ?_⟩
          · simp [RecommendationsHandler.get, hacl, hparse, hu, hc, hi]
          · intro x hx
            simp at hx
          · intro hmem
            simp at hmem
      | some uid =>
          refine ⟨[], [], ?_, ?_, ?_⟩
          · simp [RecommendationsHandler.get, hacl, hparse, hu, hc, hi]
          · intro x hx
            simp at hx
          · intro hmem
            simp at hmem
    · cases hu : env.user_id with
      | none =>
          refine ⟨_, [.getExplorationRecommendationsCall eid,
            .randomSampleCall
              (pySetDiff (env.get_exploration_recommendations eid)
                author_ids)
              (min MAX_SYSTEM_RECOMMENDATIONS
                (pySetDiff (env.get_exploration_recommendations eid)
                  author_ids).length)], ?_, (hsys []).1, ?_⟩
          · simp [RecommendationsHandler.get, hacl, hparse, hu, hc, hi]
          · intro _
            exact (hsys []).2
      | some uid =>
          refine ⟨_, [.getExplorationRecommendationsCall eid,
            .randomSampleCall
              (pySetDiff (env.get_exploration_recommendations eid)
                author_ids)
              (min MAX_SYSTEM_RECOMMENDATIONS
                (pySetDiff (env.get_exploration_recommendations eid)
                  author_ids).length)], ?_, (hsys []).1, ?_⟩
          · simp [RecommendationsHandler.get, hacl, hparse, hu, hc, hi]
          · intro _
            exact (hsys []).2
  · cases hu : env.user_id with
    | some uid =>
        -- logged in within a collection: ids come from the learner's
        -- next explorations in the collection
        refine ⟨pySetDiff
          (env.get_next_exploration_ids_to_complete_by_user uid
            (.str req.collection_id)) author_ids,
          [.getNextExplorationIdsToCompleteByUser uid
            (.str req.collection_id)], ?_, ?_, ?_⟩
        · simp [RecommendationsHandler.get, hacl, hparse, hu, hc]
        · intro x hx
          exact ((mem_pySetDiff x _ _).mp hx).2
        · intro hmem
          simp at hmem
    | none =>
        obtain ⟨col, hcol⟩ := hcoll req.collection_id hc
        by_cases hn : (col.get_next_exploration_ids_in_sequence eid).isEmpty = true
        · by_cases hi : req.include_system_recommendations = ""
          · refine ⟨[], [.getCollectionById req.collection_id,
              .getNextExplorationIdsInSequence eid], ?_, ?_, ?_⟩
            · simp [RecommendationsHandler.get, hacl, hparse, hu, hc,
                hcol, hn, hi]
            · intro x hx
              simp at hx
            · intro hmem
              simp at hmem
          · refine ⟨_, [.getCollectionById req.collection_id,
              .getNextExplorationIdsInSequence eid,
              .getExplorationRecommendationsCall eid,
              .randomSampleCall
                (pySetDiff (env.get_exploration_recommendations eid)
                  author_ids)
                (min MAX_SYSTEM_RECOMMENDATIONS
                  (pySetDiff (env.get_exploration_recommendations eid)
                    author_ids).length)], ?_,
              (hsys []).1, ?_⟩
            · simp [RecommendationsHandler.get, hacl, hparse, hu, hc,
                hcol, hn, hi]
            · intro _
              exact (hsys []).2
        · have hn2 := Bool.eq_false_iff.mpr hn
          refine ⟨pySetDiff
            (col.get_next_exploration_ids_in_sequence eid) author_ids,
            [.getCollectionById req.collection_id,
             .getNextExplorationIdsInSequence eid], ?_, ?_, ?_⟩
          · simp [RecommendationsHandler.get, hacl, hparse, hu, hc,
              hcol, hn2]
          · intro x hx
            exact ((mem_pySetDiff x _ _).mp hx).2
          · intro hmem
            simp at hmem

/-- Witness for C8: a concrete request with system recommendations
enabled and no collection context. -/
theorem recommendations_auto_ids_disjoint_and_bounded_witness :
    testEnv.can_play_exploration "eid" = true ∧
    testEnv.json_loads "[]" = some [] ∧
    (∃ (auto : List String) (calls : List Call),
      RecommendationsHandler.get testEnv "eid" ⟨"", "sys", "[]"⟩ [] =
        (.ok (.json (.obj (dictUpdate []
          [("summaries",
            testEnv.get_displayable_exp_summary_dicts_matching_ids
              ([] ++ auto))]))),
         calls ++ [.getDisplayableSummaries ([] ++ auto)]) ∧
      (∀ x ∈ auto, x ∉ ([] : List String)) ∧
      (Call.getExplorationRecommendationsCall "eid" ∈ calls →
        auto.length ≤ MAX_SYSTEM_RECOMMENDATIONS)) := by
  refine ⟨rfl, rfl, ?_⟩
  exact recommendations_auto_ids_disjoint_and_bounded testEnv "eid"
    ⟨"", "sys", "[]"⟩ [] [] rfl rfl
    (fun l k hk =>
      ⟨by show (l.take k).length = k
          rw [List.length_take]
          exact Nat.min_eq_left hk,
       fun x hx => List.take_subset k l hx⟩)
    (fun c hc => ⟨testCollection, rfl⟩)
